import Mathlib

/-!
Verification of the whispr-clone push-to-talk transcription client.

The development shallowly embeds the two source modules:

* `src/lib/deepgram.ts` — `getDeepgramClient` and
  `createTranscriptionConnection` (the connection factory with its fixed
  live-transcription options);
* `src/hooks/useMicrophone.ts` — the `useMicrophone` hook
  (`startMicrophone` / `stopMicrophone`) together with the `App`
  component that owns the session lifecycle: `stopKeepAlive` /
  `startKeepAlive`, `closeConnection`, `initConnection` (with its
  `open` / `results` / `error` / `close` event handlers), `handleStart`,
  `handleStop`, the `ondataavailable` chunk handler, and the component
  teardown effect.

React `useState` / `useRef` cells become fields of an explicit `AppState`
record; every handler becomes a pure state-transition function.  Ghost
fields (`sentChunks`, `closeCalls`, `openCalls`, `acquisitions`) record the
observable calls made on the external collaborators (`connection.send`,
`connection.finish`, `deepgram.listen.live`, `getUserMedia`) so that
ordering and counting properties can be stated.  Timers are modelled by a
remaining-delay field plus an explicit `tick` that advances time and fires
an expired timer.  Asynchronous success paths (microphone acquisition
succeeding, the connection factory not throwing) are taken as the normal
path; the externally driven socket events (`open`, `error`, `close`) are
separate transition functions applied by the environment.
-/

namespace Whispr

/-- One `Blob` produced by `MediaRecorder.ondataavailable`: an opaque audio
chunk with a byte `size` (the handler drops chunks with `size = 0`) and a
`payloadId` standing for its opaque contents, so that distinct chunks can be
told apart in ordering statements. -/
structure Blob where
  size : Nat
  payloadId : Nat
deriving DecidableEq

/-- Connection options passed to `deepgram.listen.live` in
`createTranscriptionConnection` (`src/lib/deepgram.ts`). -/
structure LiveOptions where
  model : String
  language : String
  smart_format : Bool
deriving DecidableEq

/-- The Deepgram client produced by `createClient(DEEPGRAM_API_KEY)`;
only its key is observable to this program. -/
structure DeepgramClient where
  apiKey : String
deriving DecidableEq

/-- The live connection object returned by `deepgram.listen.live(...)`:
the options it was created with, plus its WebSocket `readyState`
(`getReadyState() = 1` means open-ready). -/
structure LiveConn where
  options : LiveOptions
  readyState : Nat
deriving DecidableEq

/-- Source `getDeepgramClient` (`src/lib/deepgram.ts`): throws when
`VITE_DEEPGRAM_API_KEY` is absent, otherwise builds a client from it. -/
def getDeepgramClient (envKey : Option String) : Except String DeepgramClient :=
  match envKey with
  | none => Except.error "Missing VITE_DEEPGRAM_API_KEY"
  | some key => Except.ok { apiKey := key }

/-- Source `createTranscriptionConnection` (`src/lib/deepgram.ts`): calls
`deepgram.listen.live` with the literal options
literally model "nova", language "en-US", smart_format true; the new
socket starts out not yet open (`readyState = 0`). -/
def createTranscriptionConnection (_deepgram : DeepgramClient) : LiveConn :=
  { options := { model := "nova", language := "en-US", smart_format := true }
    readyState := 0 }

/-- State of the `useMicrophone` hook: the `stream` and `recorder` state
cells (handles stood in for by numbers), the `isRecording` flag, and a ghost
counter of `getUserMedia` acquisitions (each acquisition yields a fresh
stream/recorder handle, numbered by the counter). -/
structure MicState where
  stream : Option Nat
  recorder : Option Nat
  isRecording : Bool
  acquisitions : Nat
deriving DecidableEq

/-- Source `startMicrophone` (success path): awaits `getUserMedia`, builds a new
`MediaRecorder` on the fresh stream, stores both and sets `isRecording`,
and returns the new recorder.  There is no guard on `isRecording`: every
call acquires anew. -/
def startMicrophone (m : MicState) : MicState × Nat :=
  let handle := m.acquisitions
  ({ stream := some handle
     recorder := some handle
     isRecording := true
     acquisitions := m.acquisitions + 1 }, handle)

/-- Source `stopMicrophone`: stops the recorder and the stream tracks and clears
all three state cells. -/
def stopMicrophone (m : MicState) : MicState :=
  { m with stream := none, recorder := none, isRecording := false }

/-- The connection status cell of `App`:
`"offline" | "connecting" | "online" | "error"` (the spec names these
Idle / Connecting / Online / Error). -/
inductive ConnStatus where
  | offline
  | connecting
  | online
  | error
deriving DecidableEq

/-- The payload `handleResults` reads from a transcript event:
`data.is_final` and `data.channel?.alternatives[0]?.transcript`, the latter
possibly absent (optional-chaining yields `undefined`). -/
structure ResultsData where
  is_final : Bool
  transcript : Option String
deriving DecidableEq

/-- The whole `App` component state: the `useState` cells
(`transcription`, `interimTranscript`, `connectionStatus`, `error`), the
refs (`connection`, `audioBuffer`, `closeTimeout` as remaining
milliseconds, `keepAliveInterval` as an armed flag), the embedded
microphone hook state, and ghost observables: chunks passed to
`connection.send` in order, `finish()` call count, `listen.live` call
count. -/
structure AppState where
  transcription : String
  interimTranscript : String
  connectionStatus : ConnStatus
  error : Option String
  mic : MicState
  connection : Option LiveConn
  audioBuffer : List Blob
  closeTimeout : Option Nat
  keepAliveInterval : Bool
  sentChunks : List Blob
  closeCalls : Nat
  openCalls : Nat
deriving DecidableEq

/-- The initial render: every cell empty or `offline`. -/
def initialState : AppState :=
  { transcription := ""
    interimTranscript := ""
    connectionStatus := ConnStatus.offline
    error := none
    mic := { stream := none, recorder := none, isRecording := false, acquisitions := 0 }
    connection := none
    audioBuffer := []
    closeTimeout := none
    keepAliveInterval := false
    sentChunks := []
    closeCalls := 0
    openCalls := 0 }

/-- JavaScript `String.prototype.trim`: removes whitespace from both ends
of the string (embedded by structural recursion over the character list so
that concrete instances evaluate). -/
def jsTrim (s : String) : String :=
  String.mk ((((s.data.dropWhile Char.isWhitespace).reverse).dropWhile
      Char.isWhitespace).reverse)

/-- Source `stopKeepAlive`: clears the keep-alive interval if armed. -/
def stopKeepAlive (s : AppState) : AppState :=
  { s with keepAliveInterval := false }

/-- Source `startKeepAlive`: calls `stopKeepAlive` then arms a fresh 5-second
interval. -/
def startKeepAlive (s : AppState) : AppState :=
  { stopKeepAlive s with keepAliveInterval := true }

/-- Check `connectionRef.current?.getReadyState() === 1`: the readiness test
used by the chunk handler and by `handleStart`. -/
def connReady (s : AppState) : Bool :=
  match s.connection with
  | some c => c.readyState = 1
  | none => false

/-- Source `closeConnection`: if a connection is held, calls `finish()` on it and
nulls the ref; then sets the status to `offline` and stops the keep-alive
interval. -/
def closeConnection (s : AppState) : AppState :=
  let s1 :=
    match s.connection with
    | some _ => { s with closeCalls := s.closeCalls + 1, connection := none }
    | none => s
  stopKeepAlive { s1 with connectionStatus := ConnStatus.offline }

/-- The `results` / `Results` / `transcript` handler registered by
`initConnection`: reads `data.channel?.alternatives[0]?.transcript`; when
that is present and truthy (non-empty), a final event appends it to
`transcription` with a separating space and trims, clearing
`interimTranscript`, and a non-final event replaces `interimTranscript`;
an absent or empty transcript leaves the state untouched. -/
def handleResults (s : AppState) (data : ResultsData) : AppState :=
  match data.transcript with
  | none => s
  | some t =>
    if t = "" then s
    else if data.is_final then
      { s with transcription := jsTrim (s.transcription ++ " " ++ t)
               interimTranscript := "" }
    else
      { s with interimTranscript := t }

/-- The `open` handler registered by `initConnection`: the socket has just
become open-ready, the status cell is set to `online` and the keep-alive
interval is started (the pending `initConnection` promise resolves). -/
def onOpen (s : AppState) : AppState :=
  startKeepAlive
    { s with connectionStatus := ConnStatus.online
             connection := s.connection.map (fun c => { c with readyState := 1 }) }

/-- The `error` handler registered by `initConnection`: records the error
message and sets the status cell to `error`; it touches nothing else — the
keep-alive interval, the connection ref and the audio buffer are all left
as they are. -/
def onErrorHandler (s : AppState) : AppState :=
  { s with error := some "AI Connection Error"
           connectionStatus := ConnStatus.error }

/-- A remote stream failure as the environment delivers it: the underlying
socket leaves the open state (readyState becomes CLOSED = 3), then the
registered `error` handler runs. -/
def connectionFailure (s : AppState) : AppState :=
  onErrorHandler
    { s with connection := s.connection.map (fun c => { c with readyState := 3 }) }

/-- The `close` handler registered by `initConnection` (server-initiated
close): sets the status cell to `offline` and stops the keep-alive
interval. -/
def onCloseHandler (s : AppState) : AppState :=
  stopKeepAlive { s with connectionStatus := ConnStatus.offline }

/-- Source `initConnection` (success path of the `try` block): returns the held
connection unchanged when one exists and the status is already `online`;
otherwise sets the status to `connecting`, clears the error cell, creates a
fresh connection via `createTranscriptionConnection` (counted in
`openCalls`) and stores it in the ref.  The registered event handlers are
modelled by the separate transition functions above. -/
def initConnection (dg : DeepgramClient) (s : AppState) : AppState :=
  if s.connection.isSome ∧ s.connectionStatus = ConnStatus.online then s
  else
    { s with connectionStatus := ConnStatus.connecting
             error := none
             connection := some (createTranscriptionConnection dg)
             openCalls := s.openCalls + 1 }

/-- The `while (audioBufferRef.current.length > 0)` drain loop of the
chunk handler: repeatedly `shift()`s the oldest buffered chunk and passes
it to `connection.send`, returning the sent-chunk log and the emptied
buffer. -/
def drainLoop (sent : List Blob) : List Blob → List Blob × List Blob
  | [] => (sent, [])
  | chunk :: rest => drainLoop (sent ++ [chunk]) rest

/-- The `mediaRecorder.ondataavailable` handler installed by
`handleStart`: a chunk of positive size is either sent — after first
draining any buffered chunks oldest-first — when the connection reports
ready, or appended to the audio buffer when it does not; empty chunks are
ignored. -/
def onDataAvailable (s : AppState) (event : Blob) : AppState :=
  if 0 < event.size then
    if connReady s then
      let drained := drainLoop s.sentChunks s.audioBuffer
      { s with audioBuffer := drained.2, sentChunks := drained.1 ++ [event] }
    else
      { s with audioBuffer := s.audioBuffer ++ [event] }
  else s

/-- Folds `onDataAvailable` over a list of arriving chunks. -/
def feedChunks (s : AppState) : List Blob → AppState
  | [] => s
  | c :: cs => feedChunks (onDataAvailable s c) cs

/-- Source `handleStart` (success path, for a freshly created connection up to the
point where the pending open resolves): clears any pending auto-close
timeout, clears the error cell and the interim transcript, resets the
audio buffer to empty, acquires the microphone, and — when no held
connection reports ready — runs `initConnection`; the chunk handler and
`mediaRecorder.start(200)` are modelled by `onDataAvailable` applied to
later arrivals. -/
def handleStart (dg : DeepgramClient) (s : AppState) : AppState :=
  let s1 := { s with closeTimeout := none
                     error := none
                     interimTranscript := ""
                     audioBuffer := ([] : List Blob) }
  let acq := startMicrophone s1.mic
  let s2 := { s1 with mic := acq.1 }
  if connReady s2 then s2 else initConnection dg s2

/-- Source `handleStop`: stops the microphone, clears the interim transcript,
clears any pending auto-close timeout and arms a fresh 60000 ms one. -/
def handleStop (s : AppState) : AppState :=
  { s with mic := stopMicrophone s.mic
           interimTranscript := ""
           closeTimeout := some 60000 }

/-- Advances time by `dt` milliseconds: if the armed auto-close timeout
expires within `dt`, it fires `closeConnection` (and is disarmed);
otherwise its remaining delay shrinks. -/
def tick (s : AppState) (dt : Nat) : AppState :=
  match s.closeTimeout with
  | none => s
  | some t =>
    if t ≤ dt then closeConnection { s with closeTimeout := none }
    else { s with closeTimeout := some (t - dt) }

/-- The `useEffect` teardown (the component's shutdown): clears the
auto-close timeout if armed, stops the keep-alive interval, and calls
`finish()` on the held connection if any.  It is total — it never fails —
and it does not touch the microphone state. -/
def shutdownEffect (s : AppState) : AppState :=
  let s1 := { s with closeTimeout := none }
  let s2 := stopKeepAlive s1
  match s2.connection with
  | some _ => { s2 with closeCalls := s2.closeCalls + 1 }
  | none => s2

/-- A fixed client value for concrete scenarios. -/
def dgClient : DeepgramClient := { apiKey := "k" }

/-- A reachable online session: first `handleStart` from the initial
state, then the `open` event. -/
def sessionOnline : AppState := onOpen (handleStart dgClient initialState)

/-! ### Helper lemmas about the chunk path -/

/-- The drain loop sends the whole buffer, oldest first, appending it to
the sent log, and leaves the buffer empty. -/
theorem drainLoop_eq (buf acc : List Blob) : drainLoop acc buf = (acc ++ buf, []) := by
  induction buf generalizing acc with
  | nil => simp [drainLoop]
  | cons c rest ih => simp [drainLoop, ih]

/-- Readiness only looks at the connection ref, not at the audio buffer. -/
theorem connReady_set_buffer (s : AppState) (b : List Blob) :
    connReady { s with audioBuffer := b } = connReady s := rfl

/-- Readiness only looks at the connection ref, not at the buffer or the
sent-chunk log. -/
theorem connReady_set_buffer_sent (s : AppState) (b sc : List Blob) :
    connReady { s with audioBuffer := b, sentChunks := sc } = connReady s := rfl

/-- While the connection is not ready, every arriving positive-size chunk
is appended to the audio buffer and nothing is sent. -/
theorem feedChunks_offline (cs : List Blob) (s : AppState)
    (hready : connReady s = false) (hpos : ∀ c ∈ cs, 0 < c.size) :
    feedChunks s cs = { s with audioBuffer := s.audioBuffer ++ cs } := by
  induction cs generalizing s with
  | nil => simp [feedChunks]
  | cons c rest ih =>
    have hc : 0 < c.size := hpos c (List.mem_cons_self c rest)
    have hrest : ∀ x ∈ rest, 0 < x.size := fun x hx => hpos x (List.mem_cons_of_mem c hx)
    have step : onDataAvailable s c = { s with audioBuffer := s.audioBuffer ++ [c] } := by
      simp [onDataAvailable, hc, hready]
    have hready2 : connReady { s with audioBuffer := s.audioBuffer ++ [c] } = false := by
      rw [connReady_set_buffer]; exact hready
    simp only [feedChunks, step, ih _ hready2 hrest]
    simp

/-- While the connection is ready, a nonempty run of arriving positive-size
chunks first drains the buffer oldest-first and then delivers the new
chunks themselves, in order; the buffer ends empty. -/
theorem feedChunks_online (ds : List Blob) (s : AppState)
    (hready : connReady s = true) (hpos : ∀ d ∈ ds, 0 < d.size) (hne : ds ≠ []) :
    feedChunks s ds =
      { s with audioBuffer := []
               sentChunks := s.sentChunks ++ s.audioBuffer ++ ds } := by
  induction ds generalizing s with
  | nil => exact absurd rfl hne
  | cons d rest ih =>
    have hd : 0 < d.size := hpos d (List.mem_cons_self d rest)
    have hrest : ∀ x ∈ rest, 0 < x.size := fun x hx => hpos x (List.mem_cons_of_mem d hx)
    have step : onDataAvailable s d =
        { s with audioBuffer := []
                 sentChunks := (s.sentChunks ++ s.audioBuffer) ++ [d] } := by
      simp [onDataAvailable, hd, hready, drainLoop_eq]
    by_cases hr : rest = []
    · subst hr
      simp only [feedChunks, step]
    · have hready2 : connReady
          { s with audioBuffer := ([] : List Blob)
                   sentChunks := (s.sentChunks ++ s.audioBuffer) ++ [d] } = true := by
        rw [connReady_set_buffer_sent]; exact hready
      simp only [feedChunks, step, ih _ hready2 hrest hr]
      simp [List.append_assoc]

/-- The open handler leaves the audio buffer, the sent log and the call
counters untouched; it only flips status, readiness and the keep-alive. -/
theorem onOpen_preserves (s : AppState) :
    (onOpen s).audioBuffer = s.audioBuffer ∧
    (onOpen s).sentChunks = s.sentChunks := ⟨rfl, rfl⟩

/-- After the open handler runs on a state that holds a connection, the
readiness check succeeds. -/
theorem connReady_onOpen (s : AppState) (h : s.connection.isSome = true) :
    connReady (onOpen s) = true := by
  obtain ⟨c, hc⟩ := Option.isSome_iff_exists.mp h
  simp [onOpen, startKeepAlive, stopKeepAlive, connReady, hc]

/-! ### Claim theorems -/

/-- Claim C2: for every sequence of positive-size audio chunks arriving
while the held connection is not ready, followed by the open event making
it ready, followed by at least one further chunk, the remote service
receives the buffered chunks in push order with no gaps and no duplicates,
all before any chunk that arrived after readiness: the final sent log is
exactly the prior log, then the prior buffer, then the pre-online chunks,
then the post-online chunks, and the buffer ends empty. -/
theorem C2_buffered_chunks_in_order (s : AppState) (cs ds : List Blob)
    (hnr : connReady s = false)
    (hconn : s.connection.isSome = true)
    (hcs : ∀ c ∈ cs, 0 < c.size)
    (hds : ∀ d ∈ ds, 0 < d.size)
    (hne : ds ≠ []) :
    (feedChunks (onOpen (feedChunks s cs)) ds).sentChunks
        = s.sentChunks ++ s.audioBuffer ++ cs ++ ds ∧
    (feedChunks (onOpen (feedChunks s cs)) ds).audioBuffer = [] := by
  have h1 : feedChunks s cs = { s with audioBuffer := s.audioBuffer ++ cs } :=
    feedChunks_offline cs s hnr hcs
  have hconn1 : (feedChunks s cs).connection.isSome = true := by
    rw [h1]; exact hconn
  have hready1 : connReady (onOpen (feedChunks s cs)) = true :=
    connReady_onOpen _ hconn1
  have h2 := feedChunks_online ds (onOpen (feedChunks s cs)) hready1 hds hne
  have hbuf : (onOpen (feedChunks s cs)).audioBuffer = s.audioBuffer ++ cs := by
    rw [(onOpen_preserves _).1, h1]
  have hsent : (onOpen (feedChunks s cs)).sentChunks = s.sentChunks := by
    rw [(onOpen_preserves _).2, h1]
  constructor
  · rw [h2]
    show (onOpen (feedChunks s cs)).sentChunks ++
        (onOpen (feedChunks s cs)).audioBuffer ++ ds = _
    rw [hbuf, hsent]
    simp [List.append_assoc]
  · rw [h2]

/-- Claim C2 witness: a concrete run — two chunks buffered before the
connection opens, one after — is delivered as the two buffered chunks then
the new one, with the buffer left empty. -/
theorem C2_buffered_chunks_in_order_witness :
    connReady (handleStart dgClient initialState) = false ∧
    (handleStart dgClient initialState).connection.isSome = true ∧
    (∀ c ∈ [Blob.mk 1 1, Blob.mk 1 2], 0 < c.size) ∧
    (∀ d ∈ [Blob.mk 1 3], 0 < d.size) ∧
    ([Blob.mk 1 3] ≠ ([] : List Blob)) ∧
    ((feedChunks (onOpen (feedChunks (handleStart dgClient initialState)
          [Blob.mk 1 1, Blob.mk 1 2])) [Blob.mk 1 3]).sentChunks
        = (handleStart dgClient initialState).sentChunks ++
            (handleStart dgClient initialState).audioBuffer ++
            [Blob.mk 1 1, Blob.mk 1 2] ++ [Blob.mk 1 3] ∧
      (feedChunks (onOpen (feedChunks (handleStart dgClient initialState)
          [Blob.mk 1 1, Blob.mk 1 2])) [Blob.mk 1 3]).audioBuffer = []) :=
  ⟨by decide, by decide, by decide, by decide, by decide,
   C2_buffered_chunks_in_order (handleStart dgClient initialState)
     [Blob.mk 1 1, Blob.mk 1 2] [Blob.mk 1 3]
     (by decide) (by decide) (by decide) (by decide) (by decide)⟩

/-- Claim C1 counterexample: a session goes online and errors with two
chunks buffered but unsent.  The buffer does survive the error, but the
next start call clears it before reopening, so after the reopened
connection is ready the first newly captured chunk is sent alone — the sent
log is not the two retained chunks first. -/
theorem C1_error_retention_counterexample :
    (feedChunks (connectionFailure sessionOnline)
        [Blob.mk 1 1, Blob.mk 1 2]).audioBuffer = [Blob.mk 1 1, Blob.mk 1 2] ∧
    (onDataAvailable (onOpen (handleStart dgClient
        (feedChunks (connectionFailure sessionOnline)
          [Blob.mk 1 1, Blob.mk 1 2]))) (Blob.mk 1 3)).sentChunks
      = [Blob.mk 1 3] ∧
    ¬ (onDataAvailable (onOpen (handleStart dgClient
        (feedChunks (connectionFailure sessionOnline)
          [Blob.mk 1 1, Blob.mk 1 2]))) (Blob.mk 1 3)).sentChunks
      = [Blob.mk 1 1, Blob.mk 1 2, Blob.mk 1 3] := by
  decide

/-- Claim C1 amended: buffered-but-unsent chunks are retained across the
error event itself (the error handler touches neither the buffer nor the
sent log), but the next start call resets the audio buffer to empty before
reopening a connection, without sending anything — so the retained chunks
are discarded and only chunks captured after the restart are ever sent. -/
theorem C1_amended_buffer_cleared_on_restart (dg : DeepgramClient) (s : AppState) :
    (connectionFailure s).audioBuffer = s.audioBuffer ∧
    (connectionFailure s).sentChunks = s.sentChunks ∧
    (handleStart dg s).audioBuffer = [] ∧
    (handleStart dg s).sentChunks = s.sentChunks := by
  refine ⟨rfl, rfl, ?_, ?_⟩ <;>
    · unfold handleStart initConnection startMicrophone
      dsimp only
      split
      · rfl
      · split <;> rfl

/-- Claim C3 counterexample: with capture already active after one start
call, a second start call performs a second microphone acquisition and
installs a fresh recorder handle, and the resulting state differs from the
state after the first call alone — the operation is not idempotent. -/
theorem C3_idempotence_counterexample :
    (handleStart dgClient initialState).mic.isRecording = true ∧
    (handleStart dgClient initialState).mic.acquisitions = 1 ∧
    (handleStart dgClient initialState).mic.recorder = some 0 ∧
    (handleStart dgClient (handleStart dgClient initialState)).mic.acquisitions = 2 ∧
    (handleStart dgClient (handleStart dgClient initialState)).mic.recorder = some 1 ∧
    ¬ handleStart dgClient (handleStart dgClient initialState)
        = handleStart dgClient initialState := by
  decide

/-- Claim C3 amended: a start call is never idempotent with respect to
capture — every call, including one made while capture is already active,
performs a fresh microphone acquisition and stores and returns a new
recorder handle in place of the current one, so the acquisition count grows
by one each time. -/
theorem C3_amended_start_always_acquires (dg : DeepgramClient) (s : AppState) :
    (handleStart dg s).mic =
      { stream := some s.mic.acquisitions
        recorder := some s.mic.acquisitions
        isRecording := true
        acquisitions := s.mic.acquisitions + 1 } := by
  unfold handleStart initConnection startMicrophone
  dsimp only
  split
  · rfl
  · split <;> rfl

/-- Claim C4 counterexample: with an interim fragment on display, a final
event whose transcript is empty does leave the committed transcript
unchanged, but it does not clear the interim transcript — the truthiness
guard skips the whole handler, so the fragment survives. -/
theorem C4_empty_final_counterexample :
    (handleResults (handleResults sessionOnline (ResultsData.mk false (some "x")))
        (ResultsData.mk true (some ""))).transcription = "" ∧
    (handleResults (handleResults sessionOnline (ResultsData.mk false (some "x")))
        (ResultsData.mk true (some ""))).interimTranscript = "x" ∧
    ¬ (handleResults (handleResults sessionOnline (ResultsData.mk false (some "x")))
        (ResultsData.mk true (some ""))).interimTranscript = "" := by
  decide

/-- Claim C4 amended: a final event with empty transcript is a complete
no-op — the committed transcript is unchanged and the interim transcript is
also left exactly as it was, not cleared. -/
theorem C4_amended_empty_final_noop (s : AppState) :
    handleResults s (ResultsData.mk true (some "")) = s := by
  simp [handleResults]

/-- Claim C5 counterexample: with an interim fragment on display, an
interim event whose transcript is empty does not replace the stored interim
transcript with the empty string — the truthiness guard skips the handler
and the old fragment stays displayed. -/
theorem C5_empty_interim_counterexample :
    (handleResults (handleResults sessionOnline (ResultsData.mk false (some "x")))
        (ResultsData.mk false (some ""))).interimTranscript = "x" ∧
    ¬ (handleResults (handleResults sessionOnline (ResultsData.mk false (some "x")))
        (ResultsData.mk false (some ""))).interimTranscript = "" := by
  decide

/-- Claim C5 amended: an interim event with non-empty transcript replaces
the stored interim transcript wholesale and leaves the committed transcript
unchanged; an interim event with empty transcript is a no-op and in
particular does not clear the displayed partial text. -/
theorem C5_amended_interim_replace (s : AppState) (t : String) :
    handleResults s (ResultsData.mk false (some t))
      = if t = "" then s else { s with interimTranscript := t } := by
  unfold handleResults
  dsimp only
  split <;> simp_all

/-- Claim C6 counterexample: in a reachable online session with the
heartbeat interval armed and a connection held, the error handler records
the error and moves the status to the error state, yet the heartbeat
interval is still armed and the connection handle is still held
afterwards — neither is stopped nor discarded as the claim requires. -/
theorem C6_error_transition_counterexample :
    sessionOnline.keepAliveInterval = true ∧
    sessionOnline.connection.isSome = true ∧
    (onErrorHandler sessionOnline).error = some "AI Connection Error" ∧
    (onErrorHandler sessionOnline).keepAliveInterval = true ∧
    (onErrorHandler sessionOnline).connection.isSome = true := by
  decide

/-- Claim C6 amended: the error handler records the error message and
transitions the status cell to the error state, and changes nothing else:
the heartbeat interval keeps whatever armed state it had, the connection
handle stays in the ref, and the audio buffer is untouched. -/
theorem C6_amended_error_records_only (s : AppState) :
    (onErrorHandler s).error = some "AI Connection Error" ∧
    (onErrorHandler s).connectionStatus = ConnStatus.error ∧
    (onErrorHandler s).keepAliveInterval = s.keepAliveInterval ∧
    (onErrorHandler s).connection = s.connection ∧
    (onErrorHandler s).audioBuffer = s.audioBuffer :=
  ⟨rfl, rfl, rfl, rfl, rfl⟩

/-- Claim C7 counterexample: with capture active, the teardown effect runs
to completion but the microphone is still recording afterwards — the audio
source is not released, contrary to the claim. -/
theorem C7_shutdown_counterexample :
    (handleStart dgClient initialState).mic.isRecording = true ∧
    (shutdownEffect (handleStart dgClient initialState)).mic.isRecording = true ∧
    ¬ (shutdownEffect (handleStart dgClient initialState)).mic.isRecording = false := by
  decide

/-- Claim C7 amended: the teardown effect, from any state, cancels the
grace-period timeout and the heartbeat interval and calls finish exactly
once on a held connection (and not at all otherwise), and never fails — but
it does not release the audio source: the microphone state is untouched. -/
theorem C7_amended_shutdown (s : AppState) :
    (shutdownEffect s).closeTimeout = none ∧
    (shutdownEffect s).keepAliveInterval = false ∧
    (shutdownEffect s).closeCalls
        = s.closeCalls + (if s.connection.isSome then 1 else 0) ∧
    (shutdownEffect s).mic = s.mic := by
  unfold shutdownEffect stopKeepAlive
  cases hc : s.connection <;> simp [hc]

/-- Claim C8: after a stop call with a connection held and no further
start call, no finish call happens strictly before the 60000 ms grace
period elapses (the timer stays armed with the remaining delay), and when
the full 60000 ms elapse the timer fires exactly one finish call, the
status cell moves to offline (the spec's Idle), the heartbeat interval is
stopped, the connection ref is cleared, and the timer is disarmed. -/
theorem C8_grace_period (s : AppState) (dt : Nat)
    (hconn : s.connection.isSome = true) (hdt : dt < 60000) :
    (tick (handleStop s) dt).closeCalls = s.closeCalls ∧
    (tick (handleStop s) dt).closeTimeout = some (60000 - dt) ∧
    (tick (handleStop s) 60000).closeCalls = s.closeCalls + 1 ∧
    (tick (handleStop s) 60000).connectionStatus = ConnStatus.offline ∧
    (tick (handleStop s) 60000).keepAliveInterval = false ∧
    (tick (handleStop s) 60000).connection = none ∧
    (tick (handleStop s) 60000).closeTimeout = none := by
  obtain ⟨c, hc⟩ := Option.isSome_iff_exists.mp hconn
  have hnot : ¬ (60000 ≤ dt) := Nat.not_le.mpr hdt
  refine ⟨?_, ?_, ?_, ?_, ?_, ?_, ?_⟩ <;>
    simp [tick, handleStop, stopMicrophone, closeConnection, stopKeepAlive, hnot, hc]

/-- Claim C8 witness: in the concrete online session, 59999 ms after the
stop call no finish has happened, and at 60000 ms exactly one finish has
happened with the session offline and the heartbeat stopped. -/
theorem C8_grace_period_witness :
    sessionOnline.connection.isSome = true ∧ 59999 < 60000 ∧
    ((tick (handleStop sessionOnline) 59999).closeCalls = sessionOnline.closeCalls ∧
     (tick (handleStop sessionOnline) 59999).closeTimeout = some (60000 - 59999) ∧
     (tick (handleStop sessionOnline) 60000).closeCalls = sessionOnline.closeCalls + 1 ∧
     (tick (handleStop sessionOnline) 60000).connectionStatus = ConnStatus.offline ∧
     (tick (handleStop sessionOnline) 60000).keepAliveInterval = false ∧
     (tick (handleStop sessionOnline) 60000).connection = none ∧
     (tick (handleStop sessionOnline) 60000).closeTimeout = none) :=
  ⟨by decide, by decide,
   C8_grace_period sessionOnline 59999 (by decide) (by decide)⟩

/-- Claim C9: from the empty transcript state, interim "a", interim "ab",
then final "abc" leave the committed transcript "abc" and the interim
transcript empty, and a further empty interim event leaves the committed
transcript unchanged. -/
theorem C9_transcript_merge_law :
    (handleResults (handleResults (handleResults initialState
        (ResultsData.mk false (some "a"))) (ResultsData.mk false (some "ab")))
        (ResultsData.mk true (some "abc"))).transcription = "abc" ∧
    (handleResults (handleResults (handleResults initialState
        (ResultsData.mk false (some "a"))) (ResultsData.mk false (some "ab")))
        (ResultsData.mk true (some "abc"))).interimTranscript = "" ∧
    (handleResults (handleResults (handleResults (handleResults initialState
        (ResultsData.mk false (some "a"))) (ResultsData.mk false (some "ab")))
        (ResultsData.mk true (some "abc")))
        (ResultsData.mk false (some ""))).transcription = "abc" := by
  decide

/-- Claim C10: every streaming connection the program opens is created
with the same fixed parameters — model "nova", language "en-US", smart
formatting on — for every client value; and the only connection the session
logic ever installs is either the one already held or one freshly produced
by this factory. -/
theorem C10_fixed_connection_options (dg : DeepgramClient) (s : AppState) :
    (createTranscriptionConnection dg).options
      = LiveOptions.mk "nova" "en-US" true ∧
    ((initConnection dg s).connection = s.connection ∨
      (initConnection dg s).connection = some (createTranscriptionConnection dg)) := by
  constructor
  · rfl
  · unfold initConnection
    split
    · exact Or.inl rfl
    · exact Or.inr rfl

end Whispr
